import Mathlib

/-!
Shallow embedding of the AIgram backend (src/main.py, src/schemas.py).

Modelling conventions:
* MongoDB documents are Lean structures; the store-native `_id` is a `Nat`,
  and `str(ObjectId)` is modelled by `Nat.repr`.
* The document database handle `db` is `Option Store` (`none` = unset handle,
  matching `db is None` in the source).
* Python's `random` module is modelled by an explicit stream of naturals
  (`Rng`); each primitive (`randint`, `choice`, `sample`) consumes draws from
  the stream.  All claims hold for every stream.
* HTTP outcomes are `ApiResult`: `ok` (200 body), `httpError status detail`
  (a raised `fastapi.HTTPException`), `unhandled msg` (an exception escaping
  the handler, which FastAPI serves as a generic 500 without the message).
* Query failures of the underlying store (network errors etc.) are injected
  through a `Faults` record passed to the request handlers whose error
  contracts the specification discusses; `healthy` injects no failure.
* Timestamps are abstract `Nat` ticks; `isoformat` is an injective rendering.
-/

/-- Character document as stored in the `character` collection.
Field `bioText` models the source field `bio`. -/
structure CharacterDoc where
  id : Nat
  username : String
  name : String
  bioText : Option String
  avatar_url : Option String
  interests : List String
  followers : Nat
  following : Nat
  created_at : Nat
  updated_at : Nat
deriving Repr, DecidableEq

/-- Post document as stored in the `post` collection. -/
structure PostDoc where
  id : Nat
  author_type : String
  author_id : String
  type : String
  media_url : String
  caption : Option String
  hashtags : List String
  like_count : Nat
  comment_count : Nat
  created_at : Nat
  updated_at : Nat
deriving Repr, DecidableEq

/-- Story document as stored in the `story` collection. -/
structure StoryDoc where
  id : Nat
  author_type : String
  author_id : String
  media_url : String
  text_overlay : Option String
  expires_at : Option String
  created_at : Nat
  updated_at : Nat
deriving Repr, DecidableEq

/-- The document store: the three collections the service touches, the next
system-generated identifier, and the current clock tick. -/
structure Store where
  characters : List CharacterDoc
  posts : List PostDoc
  stories : List StoryDoc
  nextId : Nat
  now : Nat
deriving Repr, DecidableEq

/-- The `BootstrapResponse` pydantic model from src/main.py. -/
structure BootstrapResponse where
  characters : Nat
  posts : Nat
  stories : Nat
deriving Repr, DecidableEq

/-- Outcome of invoking a request handler. -/
inductive ApiResult (α : Type) where
  | ok : α → ApiResult α
  | httpError : Nat → String → ApiResult α
  | unhandled : String → ApiResult α
deriving Repr, DecidableEq

/-- Injected store-level query failures, per collection: `some msg` means any
query on that collection raises an exception rendering as `msg`. -/
structure Faults where
  charErr : Option String
  postErr : Option String
  storyErr : Option String
deriving Repr, DecidableEq

/-- A healthy connection: no query fails. -/
def healthy : Faults := ⟨none, none, none⟩

/-- Message of the `TypeError` raised by subscripting `None`
(CPython renders it with quotes around NoneType). -/
def noneSubscriptMsg : String := "TypeError: NoneType object is not subscriptable"

/-- Pseudo-random source: an arbitrary stream of naturals and a cursor. -/
structure Rng where
  stream : Nat → Nat
  idx : Nat

/-- Current draw of the stream. -/
def Rng.val (r : Rng) : Nat := r.stream r.idx

/-- Advance the stream cursor. -/
def Rng.bump (r : Rng) : Rng := ⟨r.stream, r.idx + 1⟩

/-- Python `random.randint(lo, hi)`: uniform in `[lo, hi]` inclusive; modelled as the
next stream draw reduced into the interval. -/
def randint (lo hi : Nat) (r : Rng) : Nat × Rng :=
  (lo + r.val % (hi + 1 - lo), r.bump)

/-- Python `random.choice(xs)`: pick one element (the source never calls it on an
empty list; `d` is a default for totality). -/
def pyChoice {α : Type} (xs : List α) (d : α) (r : Rng) : α × Rng :=
  (xs.getD (r.val % xs.length) d, r.bump)

/-- Python `random.sample(xs, k)`: `k` distinct picks without replacement (the source
always has `k ≤ xs.length`). -/
def pySample (xs : List String) (k : Nat) (r : Rng) : List String × Rng :=
  match k with
  | 0 => ([], r)
  | Nat.succ k1 =>
    match xs with
    | [] => ([], r)
    | _ :: _ =>
      let i := r.val % xs.length
      let rest := pySample (xs.eraseIdx i) k1 r.bump
      ((xs.getD i "") :: rest.1, rest.2)

/-- The `first_names` pool from `ensure_bootstrap`. -/
def first_names : List String :=
  ["Ava","Liam","Noah","Mia","Zoe","Kai","Leo","Ivy","Nora","Mila","Aria","Ezra","Finn","Luna","Nova","Zara","Enzo","Atlas","Jade","Ada"]

/-- The `last_names` pool from `ensure_bootstrap`. -/
def last_names : List String :=
  ["Wilde","Rivera","Okafor","Nguyen","Kim","Singh","Khan","Garcia","Silva","Ivanov","Sato","Hernandez","Smith","Brown"]

/-- The `interests_pool` from `ensure_bootstrap`. -/
def interests_pool : List String :=
  ["travel","food","art","fitness","tech","gaming","fashion","music","photo","nature","design","books","coffee","pets","memes"]

/-- Python `datetime.isoformat` on the abstract clock. -/
def isoformat (t : Nat) : String := "1970-01-01T00:00:" ++ Nat.repr t

/-- Python `str.lower()`: per-character lowering (all generated names are ASCII,
where Python's `lower()` agrees with per-character `Char.toLower`). -/
def pyLower (s : String) : String := ⟨s.data.map Char.toLower⟩

/-- Decimal digit accumulator for identifier parsing. -/
def parseDigits : List Char → Nat → Option Nat
  | [], acc => some acc
  | c :: cs, acc =>
    if c.isDigit then parseDigits cs (10 * acc + (c.toNat - 48)) else none

/-- Modelled from the spec: `create_document` from database.py (absent from
src/) validates a record, stamps `created_at`/`updated_at` (UTC now) onto it,
inserts it and returns the generated identifier — specialised to the
`character` collection. -/
def create_document_character (s : Store) (username name : String)
    (b avatar_url : Option String) (interests : List String)
    (followers following : Nat) : Store :=
  { s with
    characters := s.characters ++
      [⟨s.nextId, username, name, b, avatar_url, interests, followers, following, s.now, s.now⟩],
    nextId := s.nextId + 1 }

/-- Modelled from the spec: `create_document` specialised to `post`. -/
def create_document_post (s : Store) (author_type author_id type media_url : String)
    (caption : Option String) (hashtags : List String)
    (like_count comment_count : Nat) : Store :=
  { s with
    posts := s.posts ++
      [⟨s.nextId, author_type, author_id, type, media_url, caption, hashtags, like_count, comment_count, s.now, s.now⟩],
    nextId := s.nextId + 1 }

/-- Modelled from the spec: `create_document` specialised to `story`. -/
def create_document_story (s : Store) (author_type author_id media_url : String)
    (text_overlay expires_at : Option String) : Store :=
  { s with
    stories := s.stories ++
      [⟨s.nextId, author_type, author_id, media_url, text_overlay, expires_at, s.now, s.now⟩],
    nextId := s.nextId + 1 }

/-- One iteration of the character-creation loop of `ensure_bootstrap`
(src/main.py lines 55-68): draws name, username suffix, bio adjective,
avatar index, interests, follower counts, then inserts the Character. -/
def mkCharacter (s : Store) (r : Rng) : Store × Rng :=
  let fn := pyChoice first_names "" r
  let ln := pyChoice last_names "" fn.2
  let name := fn.1 ++ " " ++ ln.1
  let suf := randint 100 999 ln.2
  let username := pyLower (fn.1 ++ Nat.repr suf.1)
  let adj := pyChoice ["virtual", "creative", "digital", "urban", "cozy"] "" suf.2
  let b := "Exploring " ++ adj.1 ++ " worlds 🌐"
  let av := randint 1 70 adj.2
  let avatar := "https://i.pravatar.cc/150?img=" ++ Nat.repr av.1
  let k := randint 2 4 av.2
  let ints := pySample interests_pool k.1 k.2
  let fol := randint 100 9000 ints.2
  let fog := randint 50 900 fol.2
  (create_document_character s username name (some b) (some avatar) ints.1 fol.1 fog.1, fog.2)

/-- The `for i in range(character_count)` loop creating characters. -/
def seedCharacters (s : Store) (r : Rng) : Nat → Store × Rng
  | 0 => (s, r)
  | Nat.succ n =>
    let o := mkCharacter s r
    seedCharacters o.1 o.2 n

/-- One iteration of the inner `for _ in range(posts_per_character)` loop
(src/main.py lines 73-86): builds media url, caption, hashtags, counts, then
inserts the Post for character `c`. -/
def mkPost (s : Store) (c : CharacterDoc) (r : Rng) : Store × Rng :=
  let m := randint 1 9999 r
  let media := "https://picsum.photos/seed/" ++ c.username ++ "-" ++ Nat.repr m.1 ++ "/800/1000"
  let cap := pyChoice ["Sunset vibes", "Daily snap", "Weekend mood", "New drop", "Behind the scenes"] "" m.2
  let tag := pyChoice interests_pool "" cap.2
  let caption := cap.1 ++ " #" ++ tag.1
  let h1 := pyChoice interests_pool "" tag.2
  let h2 := pyChoice interests_pool "" h1.2
  let lc := randint 10 5000 h2.2
  let cc := randint 0 200 lc.2
  (create_document_post s "character" (Nat.repr c.id) "image" media (some caption) [h1.1, h2.1] lc.1 cc.1, cc.2)

/-- The posts loop for one character. -/
def mkPosts (s : Store) (c : CharacterDoc) (r : Rng) : Nat → Store × Rng
  | 0 => (s, r)
  | Nat.succ n =>
    let o := mkPost s c r
    mkPosts o.1 c o.2 n

/-- The occasional-story step (src/main.py lines 88-97): with `randint(0,1)`
equal to 1, insert one Story for character `c`; returns the store, how many
stories were created (0 or 1) and the advanced stream. -/
def mkStoryMaybe (s : Store) (c : CharacterDoc) (r : Rng) : Store × Nat × Rng :=
  let coin := randint 0 1 r
  if coin.1 == 1 then
    let ov := pyChoice [some "Out and about", some "Work in progress", some "New playlist", some "Coffee time", none] none coin.2
    (create_document_story s "character" (Nat.repr c.id)
      ("https://picsum.photos/seed/story-" ++ c.username ++ "/720/1280")
      ov.1 (some (isoformat (s.now + 24))), 1, ov.2)
  else
    (s, 0, coin.2)

/-- The `for c in characters` content loop (src/main.py lines 72-97):
returns the final store, the `created_posts` and `created_stories` counters
and the advanced stream. -/
def seedContent (s : Store) (r : Rng) (ppc : Nat) :
    List CharacterDoc → Store × Nat × Nat × Rng
  | [] => (s, 0, 0, r)
  | c :: cs =>
    let o1 := mkPosts s c r ppc
    let o2 := mkStoryMaybe o1.1 c o1.2
    let rest := seedContent o2.1 o2.2.2 ppc cs
    (rest.1, ppc + rest.2.1, o2.2.1 + rest.2.2.1, rest.2.2.2)

/-- pymongo `cursor.limit(n)`: `limit(0)` means no limit at all. -/
def mongoLimit {α : Type} (n : Nat) (xs : List α) : List α :=
  if n == 0 then xs else xs.take n

/-- Function `ensure_bootstrap` (src/main.py lines 34-103).  Returns the store after
the call paired with the handler outcome.  Fault injection is not threaded
through the seeder: the specification states any persistence failure during
seeding propagates unhandled, and no claim concerns that path, so the seeder
is modelled over a healthy connection. -/
def ensure_bootstrap (db : Option Store) (character_count posts_per_character : Nat)
    (r : Rng) : Option Store × ApiResult BootstrapResponse :=
  match db with
  | none => (none, .httpError 500 "Database not configured")
  | some s =>
    let existing := s.characters.length
    if 5 ≤ existing then
      (some s, .ok ⟨existing, s.posts.length, s.stories.length⟩)
    else
      let o1 := seedCharacters s r character_count
      let characters := mongoLimit character_count o1.1.characters
      let o2 := seedContent o1.1 o1.2 posts_per_character characters
      (some o2.1, .ok ⟨character_count, o2.2.1, o2.2.2.1⟩)

/-- The author summary injected by the hydration join. -/
structure AuthorSummary where
  username : String
  name : String
  avatar_url : Option String
deriving Repr, DecidableEq

/-- A feed item: the post, possibly enriched with an `author` field. -/
structure PostItem where
  post : PostDoc
  author : Option AuthorSummary
deriving Repr, DecidableEq

/-- A stories item: the story, possibly enriched with an `author` field. -/
structure StoryItem where
  story : StoryDoc
  author : Option AuthorSummary
deriving Repr, DecidableEq

/-- The dict comprehension building `char_map`
(`{str(c.get("_id")): c for c in db["character"].find({})}`) followed by a
`.get(k)` lookup: when several characters render to the same key the later
entry overwrites the earlier, hence the lookup on the reversed list. -/
def char_map_get (cs : List CharacterDoc) (k : String) : Option CharacterDoc :=
  cs.reverse.find? (fun c => Nat.repr c.id == k)

/-- The hydration step of `get_feed` (src/main.py lines 125-133). -/
def hydratePost (cs : List CharacterDoc) (p : PostDoc) : PostItem :=
  match char_map_get cs p.author_id with
  | some c => ⟨p, some ⟨c.username, c.name, c.avatar_url⟩⟩
  | none => ⟨p, none⟩

/-- The hydration step of `get_stories` (src/main.py lines 143-150). -/
def hydrateStory (cs : List CharacterDoc) (st : StoryDoc) : StoryItem :=
  match char_map_get cs st.author_id with
  | some c => ⟨st, some ⟨c.username, c.name, c.avatar_url⟩⟩
  | none => ⟨st, none⟩

/-- Insert into a list sorted by `key` descending. -/
def insertDescBy {α : Type} (key : α → Nat) (x : α) : List α → List α
  | [] => [x]
  | y :: ys => if key y ≤ key x then x :: y :: ys else y :: insertDescBy key x ys

/-- Mongo `sort("created_at", -1)`: some ordering of the collection that is
non-increasing on the key (ties are broken arbitrarily by the store; the
claims only use that sorting permutes the collection). -/
def sortDescBy {α : Type} (key : α → Nat) : List α → List α
  | [] => []
  | x :: xs => insertDescBy key x (sortDescBy key xs)

/-- Handler `get_feed` (src/main.py lines 116-136).  The whole body is inside
`try/except Exception: raise HTTPException(500, str(e))`; with an unset
handle the first subscript raises a `TypeError` which that handler converts
to a 500 carrying the exception text.  Line 122 performs a (dead-value)
query on the `character` collection before `char_map` is built, so an
injected character-collection failure also lands in the same handler. -/
def get_feed (db : Option Store) (f : Faults) (limit : Nat) : ApiResult (List PostItem) :=
  match db with
  | none => .httpError 500 noneSubscriptMsg
  | some s =>
    match f.postErr with
    | some e => .httpError 500 e
    | none =>
      match f.charErr with
      | some e => .httpError 500 e
      | none =>
        let posts := mongoLimit limit (sortDescBy PostDoc.created_at s.posts)
        .ok (posts.map (hydratePost s.characters))

/-- Handler `get_stories` (src/main.py lines 139-151).  Unlike `get_feed` there is no
try/except: any exception (including the `TypeError` from subscripting an
unset handle) escapes the handler unhandled. -/
def get_stories (db : Option Store) (f : Faults) (limit : Nat) : ApiResult (List StoryItem) :=
  match db with
  | none => .unhandled noneSubscriptMsg
  | some s =>
    match f.storyErr with
    | some e => .unhandled e
    | none =>
      match f.charErr with
      | some e => .unhandled e
      | none =>
        let stories := mongoLimit limit (sortDescBy StoryDoc.created_at s.stories)
        .ok (stories.map (hydrateStory s.characters))

/-- Handler `get_characters` (src/main.py lines 154-157); no try/except either. -/
def get_characters (db : Option Store) (f : Faults) (limit : Nat) : ApiResult (List CharacterDoc) :=
  match db with
  | none => .unhandled noneSubscriptMsg
  | some s =>
    match f.charErr with
    | some e => .unhandled e
    | none => .ok (mongoLimit limit s.characters)

/-- Parse `bson.ObjectId(post_id)`: parses the path parameter into the store-native
identifier or raises `InvalidId`.  Store ids are modelled as naturals, so the
parse accepts exactly non-empty all-digit strings. -/
def parseObjectId (s : String) : Option Nat :=
  if s.data.isEmpty then none else parseDigits s.data 0

/-- Message of the `bson.errors.InvalidId` exception. -/
def invalidIdMsg (s : String) : String := s ++ " is not a valid ObjectId"

/-- Mongo `update_one` with an `$inc` on `like_count` and a `$set` on `updated_at`:
updates the first document with the given id (ids are unique in the store)
and reports `modified_count`. -/
def updateFirstPost (i : Nat) (now : Nat) : List PostDoc → List PostDoc × Nat
  | [] => ([], 0)
  | p :: ps =>
    if p.id == i then
      ({ p with like_count := p.like_count + 1, updated_at := now } :: ps, 1)
    else
      let o := updateFirstPost i now ps
      (p :: o.1, o.2)

/-- Handler `like_post` (src/main.py lines 160-170).  Everything — the subscript of a
possibly-unset handle, the ObjectId parse, the update, and even the
`HTTPException(404, "Post not found")` raised on `modified_count == 0` — sits
inside one `except Exception` block that re-raises as
`HTTPException(400, str(e))`; Starlette renders `str` of an HTTPException as
`"<status>: <detail>"`.  Returns the store after the call (the zero-match
update leaves it untouched) and the outcome; a `find_one` miss would be
encoded as `ok none` (JSON null). -/
def like_post (db : Option Store) (f : Faults) (post_id : String) :
    Option Store × ApiResult (Option PostDoc) :=
  match db with
  | none => (none, .httpError 400 noneSubscriptMsg)
  | some s =>
    match parseObjectId post_id with
    | none => (some s, .httpError 400 (invalidIdMsg post_id))
    | some i =>
      match f.postErr with
      | some e => (some s, .httpError 400 e)
      | none =>
        let o := updateFirstPost i s.now s.posts
        let s1 := { s with posts := o.1 }
        if o.2 == 0 then
          (some s1, .httpError 400 "404: Post not found")
        else
          (some s1, .ok (o.1.find? (fun p => p.id == i)))

/-! ### Pydantic validation (src/schemas.py)

Constructor inputs: `none` in an `Option` field means the keyword argument
was omitted.  Integer fields are `Int` so that below-minimum values are
expressible.  A `ValidationError` is an `Except.error` carrying the failing
field name. -/

/-- Keyword arguments of `Character(...)`. -/
structure CharacterInput where
  username : Option String
  name : Option String
  bioIn : Option String
  avatar_url : Option String
  interests : Option (List String)
  followers : Option Int
  following : Option Int
deriving Repr, DecidableEq

/-- The validated `Character` pydantic model. -/
structure CharacterModel where
  username : String
  name : String
  bioM : Option String
  avatar_url : Option String
  interests : List String
  followers : Int
  following : Int
deriving Repr, DecidableEq

/-- Pydantic `Character` construction (src/schemas.py lines 27-34): `username` and
`name` required; `followers`/`following` default 0 with `ge=0`. -/
def Character.validate (i : CharacterInput) : Except String CharacterModel :=
  match i.username with
  | none => .error "ValidationError: username field required"
  | some u =>
    match i.name with
    | none => .error "ValidationError: name field required"
    | some n =>
      let fol := i.followers.getD 0
      let fog := i.following.getD 0
      if fol < 0 then .error "ValidationError: followers must be ge 0"
      else if fog < 0 then .error "ValidationError: following must be ge 0"
      else .ok ⟨u, n, i.bioIn, i.avatar_url, i.interests.getD [], fol, fog⟩

/-- Keyword arguments of `Post(...)`. -/
structure PostInput where
  author_type : Option String
  author_id : Option String
  type : Option String
  media_url : Option String
  caption : Option String
  hashtags : Option (List String)
  like_count : Option Int
  comment_count : Option Int
deriving Repr, DecidableEq

/-- The validated `Post` pydantic model. -/
structure PostModel where
  author_type : String
  author_id : String
  type : String
  media_url : String
  caption : Option String
  hashtags : List String
  like_count : Int
  comment_count : Int
deriving Repr, DecidableEq

/-- Pydantic `Post` construction (src/schemas.py lines 38-46): `author_id` and
`media_url` required; `author_type` a literal in {character, user} defaulting
to "character"; `type` a literal in {image, video} defaulting to "image";
`like_count`/`comment_count` default 0 with `ge=0`. -/
def Post.validate (i : PostInput) : Except String PostModel :=
  let at_ := i.author_type.getD "character"
  if !(at_ == "character" || at_ == "user") then
    .error "ValidationError: author_type not a permitted literal"
  else
    match i.author_id with
    | none => .error "ValidationError: author_id field required"
    | some aid =>
      let ty := i.type.getD "image"
      if !(ty == "image" || ty == "video") then
        .error "ValidationError: type not a permitted literal"
      else
        match i.media_url with
        | none => .error "ValidationError: media_url field required"
        | some mu =>
          let lc := i.like_count.getD 0
          let cc := i.comment_count.getD 0
          if lc < 0 then .error "ValidationError: like_count must be ge 0"
          else if cc < 0 then .error "ValidationError: comment_count must be ge 0"
          else .ok ⟨at_, aid, ty, mu, i.caption, i.hashtags.getD [], lc, cc⟩

/-- Keyword arguments of `Reel(...)`. -/
structure ReelInput where
  author_type : Option String
  author_id : Option String
  media_url : Option String
  caption : Option String
  like_count : Option Int
  comment_count : Option Int
deriving Repr, DecidableEq

/-- The validated `Reel` pydantic model. -/
structure ReelModel where
  author_type : String
  author_id : String
  media_url : String
  caption : Option String
  like_count : Int
  comment_count : Int
deriving Repr, DecidableEq

/-- Pydantic `Reel` construction (src/schemas.py lines 55-61): `author_id` and
`media_url` required; `author_type` a literal in {character, user}.  Its
`like_count` and `comment_count` are plain `int = 0` fields — the schema
declares NO `ge=0` lower bound on them, so negative values are accepted. -/
def Reel.validate (i : ReelInput) : Except String ReelModel :=
  let at_ := i.author_type.getD "character"
  if !(at_ == "character" || at_ == "user") then
    .error "ValidationError: author_type not a permitted literal"
  else
    match i.author_id with
    | none => .error "ValidationError: author_id field required"
    | some aid =>
      match i.media_url with
      | none => .error "ValidationError: media_url field required"
      | some mu =>
        .ok ⟨at_, aid, mu, i.caption, i.like_count.getD 0, i.comment_count.getD 0⟩

/-- Keyword arguments of `User(...)`. -/
structure UserInput where
  username : Option String
  name : Option String
  bioIn : Option String
  avatar_url : Option String
deriving Repr, DecidableEq

/-- The validated `User` pydantic model. -/
structure UserModel where
  username : String
  name : Option String
  bioM : Option String
  avatar_url : Option String
deriving Repr, DecidableEq

/-- Pydantic `User` construction (src/schemas.py lines 21-25): only
`username` is required; the other fields are optional with default `None`;
no literal or numeric constraints. -/
def User.validate (i : UserInput) : Except String UserModel :=
  match i.username with
  | none => .error "ValidationError: username field required"
  | some u => .ok ⟨u, i.name, i.bioIn, i.avatar_url⟩

/-- Keyword arguments of `Story(...)`. -/
structure StoryInput where
  author_type : Option String
  author_id : Option String
  media_url : Option String
  text_overlay : Option String
  expires_at : Option String
deriving Repr, DecidableEq

/-- The validated `Story` pydantic model. -/
structure StoryModel where
  author_type : String
  author_id : String
  media_url : String
  text_overlay : Option String
  expires_at : Option String
deriving Repr, DecidableEq

/-- Pydantic `Story` construction (src/schemas.py lines 48-53): `author_id`
and `media_url` required; `author_type` a literal in {character, user}
defaulting to "character"; `text_overlay` and `expires_at` optional. -/
def Story.validate (i : StoryInput) : Except String StoryModel :=
  let at_ := i.author_type.getD "character"
  if !(at_ == "character" || at_ == "user") then
    .error "ValidationError: author_type not a permitted literal"
  else
    match i.author_id with
    | none => .error "ValidationError: author_id field required"
    | some aid =>
      match i.media_url with
      | none => .error "ValidationError: media_url field required"
      | some mu => .ok ⟨at_, aid, mu, i.text_overlay, i.expires_at⟩

/-- Keyword arguments of `Comment(...)`. -/
structure CommentInput where
  post_id : Option String
  author_type : Option String
  author_id : Option String
  text : Option String
deriving Repr, DecidableEq

/-- The validated `Comment` pydantic model. -/
structure CommentModel where
  post_id : String
  author_type : String
  author_id : String
  text : String
deriving Repr, DecidableEq

/-- Pydantic `Comment` construction (src/schemas.py lines 63-67): `post_id`,
`author_id` and `text` required; `author_type` a literal in
{character, user} defaulting to "character". -/
def Comment.validate (i : CommentInput) : Except String CommentModel :=
  match i.post_id with
  | none => .error "ValidationError: post_id field required"
  | some pid =>
    let at_ := i.author_type.getD "character"
    if !(at_ == "character" || at_ == "user") then
      .error "ValidationError: author_type not a permitted literal"
    else
      match i.author_id with
      | none => .error "ValidationError: author_id field required"
      | some aid =>
        match i.text with
        | none => .error "ValidationError: text field required"
        | some t => .ok ⟨pid, at_, aid, t⟩

/-- Keyword arguments of `Conversation(...)`. -/
structure ConversationInput where
  participant_ids : Option (List String)
deriving Repr, DecidableEq

/-- The validated `Conversation` pydantic model. -/
structure ConversationModel where
  participant_ids : List String
deriving Repr, DecidableEq

/-- Pydantic `Conversation` construction (src/schemas.py lines 69-70): the
single field `participant_ids` is required (`Field(...)`); no constraints on
its elements beyond typing. -/
def Conversation.validate (i : ConversationInput) : Except String ConversationModel :=
  match i.participant_ids with
  | none => .error "ValidationError: participant_ids field required"
  | some ps => .ok ⟨ps⟩

/-- Keyword arguments of `Message(...)`. -/
structure MessageInput where
  conversation_id : Option String
  author_type : Option String
  author_id : Option String
  text : Option String
  media_url : Option String
deriving Repr, DecidableEq

/-- The validated `Message` pydantic model. -/
structure MessageModel where
  conversation_id : String
  author_type : String
  author_id : String
  text : Option String
  media_url : Option String
deriving Repr, DecidableEq

/-- Pydantic `Message` construction (src/schemas.py lines 72-77):
`conversation_id` and `author_id` required; `author_type` a literal in
{character, user} defaulting to "character"; `text` and `media_url`
optional. -/
def Message.validate (i : MessageInput) : Except String MessageModel :=
  match i.conversation_id with
  | none => .error "ValidationError: conversation_id field required"
  | some cid =>
    let at_ := i.author_type.getD "character"
    if !(at_ == "character" || at_ == "user") then
      .error "ValidationError: author_type not a permitted literal"
    else
      match i.author_id with
      | none => .error "ValidationError: author_id field required"
      | some aid => .ok ⟨cid, at_, aid, i.text, i.media_url⟩

/-- Keyword arguments of `Notification(...)`. -/
structure NotificationInput where
  user_id : Option String
  type : Option String
  actor_id : Option String
  actor_type : Option String
  post_id : Option String
  message : Option String
deriving Repr, DecidableEq

/-- The validated `Notification` pydantic model. -/
structure NotificationModel where
  user_id : String
  type : String
  actor_id : String
  actor_type : String
  post_id : Option String
  message : Option String
deriving Repr, DecidableEq

/-- Pydantic `Notification` construction (src/schemas.py lines 79-85):
`user_id`, `type` and `actor_id` required; `type` a literal in
{like, comment, follow} with no default; `actor_type` a literal in
{character, user} defaulting to "character"; `post_id` and `message`
optional. -/
def Notification.validate (i : NotificationInput) : Except String NotificationModel :=
  match i.user_id with
  | none => .error "ValidationError: user_id field required"
  | some uid =>
    match i.type with
    | none => .error "ValidationError: type field required"
    | some ty =>
      if !(ty == "like" || ty == "comment" || ty == "follow") then
        .error "ValidationError: type not a permitted literal"
      else
        match i.actor_id with
        | none => .error "ValidationError: actor_id field required"
        | some aid =>
          let at_ := i.actor_type.getD "character"
          if !(at_ == "character" || at_ == "user") then
            .error "ValidationError: actor_type not a permitted literal"
          else .ok ⟨uid, ty, aid, at_, i.post_id, i.message⟩

/-- Success of a pydantic construction. -/
def vOk {ε α : Type} (e : Except ε α) : Bool :=
  match e with
  | .ok _ => true
  | .error _ => false

/-- A post carrying the fixed attributes the seeder gives every post it
creates for character `c`. -/
def postFromChar (c : CharacterDoc) (p : PostDoc) : Prop :=
  p.author_type = "character" ∧ p.type = "image" ∧ p.author_id = Nat.repr c.id

/-- A story carrying the fixed attributes the seeder gives every story it
creates for character `c`. -/
def storyFromChar (c : CharacterDoc) (st : StoryDoc) : Prop :=
  st.author_type = "character" ∧ st.author_id = Nat.repr c.id

/-- The empty store (no documents yet). -/
def emptyStore (nid now : Nat) : Store := ⟨[], [], [], nid, now⟩

/-- C3 conclusion, feed side: every returned feed item whose `author_id` is
the string form of a stored character id carries that character's summary;
items matching no character carry no author. -/
def FeedHydrationCorrect (s : Store) (limit : Nat) : Prop :=
  ∀ items, get_feed (some s) healthy limit = .ok items →
    ∀ it ∈ items,
      (∀ c ∈ s.characters, Nat.repr c.id = it.post.author_id →
        it.author = some ⟨c.username, c.name, c.avatar_url⟩) ∧
      ((∀ c ∈ s.characters, Nat.repr c.id ≠ it.post.author_id) → it.author = none)

/-- C3 conclusion, stories side. -/
def StoriesHydrationCorrect (s : Store) (limit : Nat) : Prop :=
  ∀ items, get_stories (some s) healthy limit = .ok items →
    ∀ it ∈ items,
      (∀ c ∈ s.characters, Nat.repr c.id = it.story.author_id →
        it.author = some ⟨c.username, c.name, c.avatar_url⟩) ∧
      ((∀ c ∈ s.characters, Nat.repr c.id ≠ it.story.author_id) → it.author = none)

/-- C10 conclusion: every seeded post/story is a well-attributed character
document, and consequently every feed/stories item is hydrated. -/
def SeededStoreHydrates (s : Store) (limit : Nat) : Prop :=
  (∀ p ∈ s.posts, p.author_type = "character" ∧ p.type = "image" ∧
    ∃ c ∈ s.characters, p.author_id = Nat.repr c.id) ∧
  (∀ st ∈ s.stories, st.author_type = "character" ∧
    ∃ c ∈ s.characters, st.author_id = Nat.repr c.id) ∧
  (∀ items, get_feed (some s) healthy limit = .ok items →
    ∀ it ∈ items, it.author.isSome = true) ∧
  (∀ items, get_stories (some s) healthy limit = .ok items →
    ∀ it ∈ items, it.author.isSome = true)

/-- The effect of the like update on the matched document:
`$inc like_count by 1` and `$set updated_at`. -/
def bumpPost (now : Nat) (q : PostDoc) : PostDoc :=
  { q with like_count := q.like_count + 1, updated_at := now }

/-! ### Concrete fixtures used to evaluate the theorems -/

/-- A stream that always draws 0. -/
def rngZero : Rng := ⟨fun _ => 0, 0⟩

/-- A mixed stream (draws vary with the cursor). -/
def rngMix : Rng := ⟨fun n => n * 37 + 11, 0⟩

/-- A minimal character document with identifier `n`. -/
def fixChar (n : Nat) : CharacterDoc :=
  ⟨n, "u" ++ Nat.repr n, "User " ++ Nat.repr n, none, none, [], 10, 5, 0, 0⟩

/-- A store already holding five characters (at the seeding threshold). -/
def fiveCharStore : Store :=
  ⟨[fixChar 0, fixChar 1, fixChar 2, fixChar 3, fixChar 4], [], [], 5, 9⟩

/-- A post authored by character 0. -/
def fixPost : PostDoc := ⟨3, "character", "0", "image", "m", none, [], 10, 2, 50, 50⟩

/-- A post whose author reference dangles (no character has id 99). -/
def fixPost2 : PostDoc := ⟨7, "character", "99", "image", "m2", none, [], 1, 0, 60, 60⟩

/-- A story authored by character 1. -/
def fixStory : StoryDoc := ⟨4, "character", "1", "sm", none, none, 55, 55⟩

/-- A small populated store: two characters, a hydratable and a dangling
post, one story. -/
def fixStore : Store := ⟨[fixChar 0, fixChar 1], [fixPost, fixPost2], [fixStory], 8, 77⟩

/-- The store produced by a from-empty seed of 2 characters, 1 post each,
under the mixed stream. -/
def seededStore : Store :=
  ((ensure_bootstrap (some (emptyStore 0 100)) 2 1 rngMix).1).getD (emptyStore 0 0)

/-! ### Helper lemmas -/

theorem mkCharacter_posts (s : Store) (r : Rng) : (mkCharacter s r).1.posts = s.posts := rfl

theorem mkCharacter_stories (s : Store) (r : Rng) : (mkCharacter s r).1.stories = s.stories := rfl

theorem mkCharacter_now (s : Store) (r : Rng) : (mkCharacter s r).1.now = s.now := rfl

theorem mkCharacter_chars_len (s : Store) (r : Rng) :
    (mkCharacter s r).1.characters.length = s.characters.length + 1 := by
  simp [mkCharacter, create_document_character]

theorem seedCharacters_posts (n : Nat) : ∀ (s : Store) (r : Rng),
    (seedCharacters s r n).1.posts = s.posts := by
  induction n with
  | zero => intro s r; rfl
  | succ n ih =>
    intro s r
    simpa [seedCharacters, mkCharacter_posts] using ih (mkCharacter s r).1 (mkCharacter s r).2

theorem seedCharacters_stories (n : Nat) : ∀ (s : Store) (r : Rng),
    (seedCharacters s r n).1.stories = s.stories := by
  induction n with
  | zero => intro s r; rfl
  | succ n ih =>
    intro s r
    simpa [seedCharacters, mkCharacter_stories] using ih (mkCharacter s r).1 (mkCharacter s r).2

theorem seedCharacters_now (n : Nat) : ∀ (s : Store) (r : Rng),
    (seedCharacters s r n).1.now = s.now := by
  induction n with
  | zero => intro s r; rfl
  | succ n ih =>
    intro s r
    simpa [seedCharacters, mkCharacter_now] using ih (mkCharacter s r).1 (mkCharacter s r).2

theorem seedCharacters_chars_len (n : Nat) : ∀ (s : Store) (r : Rng),
    (seedCharacters s r n).1.characters.length = s.characters.length + n := by
  induction n with
  | zero => intro s r; rfl
  | succ n ih =>
    intro s r
    have h := ih (mkCharacter s r).1 (mkCharacter s r).2
    simp only [seedCharacters, h, mkCharacter_chars_len]
    omega

theorem mkPost_characters (s : Store) (c : CharacterDoc) (r : Rng) :
    (mkPost s c r).1.characters = s.characters := rfl

theorem mkPost_stories (s : Store) (c : CharacterDoc) (r : Rng) :
    (mkPost s c r).1.stories = s.stories := rfl

theorem mkPost_now (s : Store) (c : CharacterDoc) (r : Rng) :
    (mkPost s c r).1.now = s.now := rfl

theorem mkPost_posts_len (s : Store) (c : CharacterDoc) (r : Rng) :
    (mkPost s c r).1.posts.length = s.posts.length + 1 := by
  simp [mkPost, create_document_post]

theorem mkPost_posts_mem (s : Store) (c : CharacterDoc) (r : Rng) :
    ∀ p ∈ (mkPost s c r).1.posts, p ∈ s.posts ∨ postFromChar c p := by
  intro p hp
  simp only [mkPost, create_document_post, List.mem_append, List.mem_singleton] at hp
  rcases hp with h | h
  · exact Or.inl h
  · exact Or.inr (by subst h; exact ⟨rfl, rfl, rfl⟩)

theorem mkPosts_characters (n : Nat) : ∀ (s : Store) (c : CharacterDoc) (r : Rng),
    (mkPosts s c r n).1.characters = s.characters := by
  induction n with
  | zero => intro s c r; rfl
  | succ n ih =>
    intro s c r
    simpa [mkPosts, mkPost_characters] using ih (mkPost s c r).1 c (mkPost s c r).2

theorem mkPosts_stories (n : Nat) : ∀ (s : Store) (c : CharacterDoc) (r : Rng),
    (mkPosts s c r n).1.stories = s.stories := by
  induction n with
  | zero => intro s c r; rfl
  | succ n ih =>
    intro s c r
    simpa [mkPosts, mkPost_stories] using ih (mkPost s c r).1 c (mkPost s c r).2

theorem mkPosts_now (n : Nat) : ∀ (s : Store) (c : CharacterDoc) (r : Rng),
    (mkPosts s c r n).1.now = s.now := by
  induction n with
  | zero => intro s c r; rfl
  | succ n ih =>
    intro s c r
    simpa [mkPosts, mkPost_now] using ih (mkPost s c r).1 c (mkPost s c r).2

theorem mkPosts_posts_len (n : Nat) : ∀ (s : Store) (c : CharacterDoc) (r : Rng),
    (mkPosts s c r n).1.posts.length = s.posts.length + n := by
  induction n with
  | zero => intro s c r; rfl
  | succ n ih =>
    intro s c r
    have h := ih (mkPost s c r).1 c (mkPost s c r).2
    simp only [mkPosts, h, mkPost_posts_len]
    omega

theorem mkPosts_posts_mem (n : Nat) : ∀ (s : Store) (c : CharacterDoc) (r : Rng),
    ∀ p ∈ (mkPosts s c r n).1.posts, p ∈ s.posts ∨ postFromChar c p := by
  induction n with
  | zero => intro s c r p hp; exact Or.inl hp
  | succ n ih =>
    intro s c r p hp
    rcases ih (mkPost s c r).1 c (mkPost s c r).2 p hp with h | h
    · exact mkPost_posts_mem s c r p h
    · exact Or.inr h

theorem mkStoryMaybe_characters (s : Store) (c : CharacterDoc) (r : Rng) :
    (mkStoryMaybe s c r).1.characters = s.characters := by
  simp only [mkStoryMaybe]
  split <;> rfl

theorem mkStoryMaybe_posts (s : Store) (c : CharacterDoc) (r : Rng) :
    (mkStoryMaybe s c r).1.posts = s.posts := by
  simp only [mkStoryMaybe]
  split <;> rfl

theorem mkStoryMaybe_now (s : Store) (c : CharacterDoc) (r : Rng) :
    (mkStoryMaybe s c r).1.now = s.now := by
  simp only [mkStoryMaybe]
  split <;> rfl

theorem mkStoryMaybe_stories_len (s : Store) (c : CharacterDoc) (r : Rng) :
    (mkStoryMaybe s c r).1.stories.length = s.stories.length + (mkStoryMaybe s c r).2.1 := by
  simp only [mkStoryMaybe]
  split
  · simp [create_document_story]
  · simp

theorem mkStoryMaybe_created_le (s : Store) (c : CharacterDoc) (r : Rng) :
    (mkStoryMaybe s c r).2.1 ≤ 1 := by
  simp only [mkStoryMaybe]
  split <;> simp

theorem mkStoryMaybe_stories_mem (s : Store) (c : CharacterDoc) (r : Rng) :
    ∀ st ∈ (mkStoryMaybe s c r).1.stories, st ∈ s.stories ∨ storyFromChar c st := by
  intro st hst
  simp only [mkStoryMaybe] at hst
  split at hst
  · simp only [create_document_story, List.mem_append, List.mem_singleton] at hst
    rcases hst with h | h
    · exact Or.inl h
    · exact Or.inr (by subst h; exact ⟨rfl, rfl⟩)
  · exact Or.inl hst

theorem seedContent_characters (cs : List CharacterDoc) :
    ∀ (s : Store) (r : Rng) (ppc : Nat),
    (seedContent s r ppc cs).1.characters = s.characters := by
  induction cs with
  | nil => intro s r ppc; rfl
  | cons c cs ih =>
    intro s r ppc
    simp only [seedContent]
    rw [ih, mkStoryMaybe_characters, mkPosts_characters]

theorem seedContent_now (cs : List CharacterDoc) :
    ∀ (s : Store) (r : Rng) (ppc : Nat),
    (seedContent s r ppc cs).1.now = s.now := by
  induction cs with
  | nil => intro s r ppc; rfl
  | cons c cs ih =>
    intro s r ppc
    simp only [seedContent]
    rw [ih, mkStoryMaybe_now, mkPosts_now]

theorem seedContent_posts_len (cs : List CharacterDoc) :
    ∀ (s : Store) (r : Rng) (ppc : Nat),
    (seedContent s r ppc cs).1.posts.length = s.posts.length + ppc * cs.length := by
  induction cs with
  | nil => intro s r ppc; simp [seedContent]
  | cons c cs ih =>
    intro s r ppc
    simp only [seedContent]
    rw [ih, mkStoryMaybe_posts, mkPosts_posts_len]
    simp only [List.length_cons, Nat.mul_succ]
    omega

theorem seedContent_created_posts (cs : List CharacterDoc) :
    ∀ (s : Store) (r : Rng) (ppc : Nat),
    (seedContent s r ppc cs).2.1 = ppc * cs.length := by
  induction cs with
  | nil => intro s r ppc; simp [seedContent]
  | cons c cs ih =>
    intro s r ppc
    simp only [seedContent]
    rw [ih]
    simp only [List.length_cons, Nat.mul_succ]
    omega

theorem seedContent_stories_len (cs : List CharacterDoc) :
    ∀ (s : Store) (r : Rng) (ppc : Nat),
    (seedContent s r ppc cs).1.stories.length = s.stories.length + (seedContent s r ppc cs).2.2.1 := by
  induction cs with
  | nil => intro s r ppc; simp [seedContent]
  | cons c cs ih =>
    intro s r ppc
    simp only [seedContent]
    rw [ih, mkStoryMaybe_stories_len, mkPosts_stories]
    omega

theorem seedContent_created_stories_le (cs : List CharacterDoc) :
    ∀ (s : Store) (r : Rng) (ppc : Nat),
    (seedContent s r ppc cs).2.2.1 ≤ cs.length := by
  induction cs with
  | nil => intro s r ppc; simp [seedContent]
  | cons c cs ih =>
    intro s r ppc
    simp only [seedContent, List.length_cons]
    have h1 := mkStoryMaybe_created_le (mkPosts s c r ppc).1 c (mkPosts s c r ppc).2
    have h2 := ih (mkStoryMaybe (mkPosts s c r ppc).1 c (mkPosts s c r ppc).2).1
      (mkStoryMaybe (mkPosts s c r ppc).1 c (mkPosts s c r ppc).2).2.2 ppc
    omega

theorem seedContent_posts_mem (cs : List CharacterDoc) :
    ∀ (s : Store) (r : Rng) (ppc : Nat),
    ∀ p ∈ (seedContent s r ppc cs).1.posts, p ∈ s.posts ∨ ∃ c ∈ cs, postFromChar c p := by
  induction cs with
  | nil => intro s r ppc p hp; exact Or.inl hp
  | cons c cs ih =>
    intro s r ppc p hp
    simp only [seedContent] at hp
    rcases ih _ _ ppc p hp with h | ⟨c1, hc1, hpc⟩
    · rw [mkStoryMaybe_posts] at h
      rcases mkPosts_posts_mem ppc s c r p h with h2 | h2
      · exact Or.inl h2
      · exact Or.inr ⟨c, List.mem_cons_self c cs, h2⟩
    · exact Or.inr ⟨c1, List.mem_cons_of_mem c hc1, hpc⟩

theorem seedContent_stories_mem (cs : List CharacterDoc) :
    ∀ (s : Store) (r : Rng) (ppc : Nat),
    ∀ st ∈ (seedContent s r ppc cs).1.stories, st ∈ s.stories ∨ ∃ c ∈ cs, storyFromChar c st := by
  induction cs with
  | nil => intro s r ppc st hst; exact Or.inl hst
  | cons c cs ih =>
    intro s r ppc st hst
    simp only [seedContent] at hst
    rcases ih _ _ ppc st hst with h | ⟨c1, hc1, hsc⟩
    · rcases mkStoryMaybe_stories_mem (mkPosts s c r ppc).1 c (mkPosts s c r ppc).2 st h with h2 | h2
      · rw [mkPosts_stories] at h2
        exact Or.inl h2
      · exact Or.inr ⟨c, List.mem_cons_self c cs, h2⟩
    · exact Or.inr ⟨c1, List.mem_cons_of_mem c hc1, hsc⟩

theorem mongoLimit_of_length_le {α : Type} (n : Nat) (xs : List α) (h : xs.length ≤ n) :
    mongoLimit n xs = xs := by
  unfold mongoLimit
  split
  · rfl
  · exact List.take_of_length_le h

theorem mongoLimit_subset {α : Type} (n : Nat) (xs : List α) :
    ∀ x ∈ mongoLimit n xs, x ∈ xs := by
  intro x hx
  unfold mongoLimit at hx
  split at hx
  · exact hx
  · exact List.take_subset n xs hx

theorem mem_insertDescBy {α : Type} (key : α → Nat) (x a : α) :
    ∀ (l : List α), a ∈ insertDescBy key x l ↔ a = x ∨ a ∈ l := by
  intro l
  induction l with
  | nil => simp [insertDescBy]
  | cons y ys ih =>
    unfold insertDescBy
    split
    · simp
    · simp only [List.mem_cons, ih]
      tauto

theorem mem_sortDescBy {α : Type} (key : α → Nat) (a : α) :
    ∀ (l : List α), a ∈ sortDescBy key l ↔ a ∈ l := by
  intro l
  induction l with
  | nil => simp [sortDescBy]
  | cons x xs ih =>
    unfold sortDescBy
    rw [mem_insertDescBy, ih]
    simp

/-- On a list whose keys are distinct, `find?` with an equality-on-key
predicate returns exactly the member carrying the key. -/
theorem find_key_unique {α β : Type} [BEq β] [LawfulBEq β] (key : α → β) (k : β) :
    ∀ (l : List α), (l.map key).Nodup → ∀ c ∈ l, key c = k →
    l.find? (fun x => key x == k) = some c := by
  intro l
  induction l with
  | nil => intro _ c hc; exact absurd hc (List.not_mem_nil c)
  | cons x xs ih =>
    intro hnd c hc hk
    have hnd' : (key x :: xs.map key).Nodup := by simpa using hnd
    have hnd1 : key x ∉ xs.map key := (List.nodup_cons.mp hnd').1
    have hnd2 : (xs.map key).Nodup := (List.nodup_cons.mp hnd').2
    rcases List.mem_cons.mp hc with rfl | hmem
    · exact List.find?_cons_of_pos xs (by simpa using hk)
    · have hx : ¬ key x = k := by
        intro he
        exact hnd1 (he ▸ hk ▸ List.mem_map_of_mem key hmem)
      rw [List.find?_cons_of_neg xs (by simpa using hx)]
      exact ih hnd2 c hmem hk

theorem find_key_none {α β : Type} [BEq β] [LawfulBEq β] (key : α → β) (k : β)
    (l : List α) (h : ∀ c ∈ l, key c ≠ k) :
    l.find? (fun x => key x == k) = none := by
  rw [List.find?_eq_none]
  intro x hx
  simpa using h x hx

theorem char_map_get_eq_some (cs : List CharacterDoc) (k : String) (c : CharacterDoc)
    (hnd : (cs.map (fun c => Nat.repr c.id)).Nodup) (hc : c ∈ cs) (hk : Nat.repr c.id = k) :
    char_map_get cs k = some c := by
  unfold char_map_get
  exact find_key_unique (fun c => Nat.repr c.id) k cs.reverse
    (by rw [List.map_reverse]; exact List.nodup_reverse.mpr hnd)
    c (List.mem_reverse.mpr hc) hk

theorem char_map_get_eq_none (cs : List CharacterDoc) (k : String)
    (h : ∀ c ∈ cs, Nat.repr c.id ≠ k) :
    char_map_get cs k = none := by
  unfold char_map_get
  exact find_key_none _ k cs.reverse (fun c hc => h c (List.mem_reverse.mp hc))

theorem char_map_get_isSome (cs : List CharacterDoc) (k : String)
    (h : ∃ c ∈ cs, Nat.repr c.id = k) :
    (char_map_get cs k).isSome = true := by
  rcases h with ⟨c, hc, hk⟩
  rcases ho : char_map_get cs k with _ | c1
  · unfold char_map_get at ho
    rw [List.find?_eq_none] at ho
    exact absurd (by simpa using hk) (ho c (List.mem_reverse.mpr hc))
  · rfl

theorem updateFirstPost_no_match (i now : Nat) :
    ∀ (l : List PostDoc), (∀ p ∈ l, p.id ≠ i) → updateFirstPost i now l = (l, 0) := by
  intro l
  induction l with
  | nil => intro _; rfl
  | cons p ps ih =>
    intro h
    have hp : ¬ (p.id == i) = true := by
      simpa using h p (List.mem_cons_self p ps)
    have hps := ih (fun q hq => h q (List.mem_cons_of_mem p hq))
    simp [updateFirstPost, hp, hps]

theorem updateFirstPost_spec (i now : Nat) :
    ∀ (l : List PostDoc), (l.map PostDoc.id).Nodup → ∀ p ∈ l, p.id = i →
    updateFirstPost i now l =
      (l.map (fun q => if q.id == i then bumpPost now q else q), 1) := by
  intro l
  induction l with
  | nil => intro _ p hp; exact absurd hp (List.not_mem_nil p)
  | cons x xs ih =>
    intro hnd p hp hpi
    have hnd' : (x.id :: xs.map PostDoc.id).Nodup := by simpa using hnd
    have hnd1 : x.id ∉ xs.map PostDoc.id := (List.nodup_cons.mp hnd').1
    have hnd2 : (xs.map PostDoc.id).Nodup := (List.nodup_cons.mp hnd').2
    rcases List.mem_cons.mp hp with rfl | hmem
    · have hx : (p.id == i) = true := by simpa using hpi
      have htail : xs.map (fun q => if q.id == i then bumpPost now q else q) = xs := by
        have hall : ∀ q ∈ xs, (if q.id == i then bumpPost now q else q) = q := by
          intro q hq
          have hq2 : ¬ (q.id == i) = true := by
            simp only [beq_iff_eq]
            intro he
            exact hnd1 (hpi ▸ he ▸ List.mem_map_of_mem PostDoc.id hq)
          simp [hq2]
        calc xs.map (fun q => if q.id == i then bumpPost now q else q)
            = xs.map id := List.map_congr_left (by simpa using hall)
          _ = xs := List.map_id xs
      simp only [updateFirstPost, hx, if_true, List.map_cons, htail]
      rfl
    · have hx : ¬ (x.id == i) = true := by
        simp only [beq_iff_eq]
        intro he
        exact hnd1 (he ▸ hpi ▸ List.mem_map_of_mem PostDoc.id hmem)
      have htail := ih hnd2 p hmem hpi
      simp only [updateFirstPost, List.map_cons]
      rw [if_neg hx, if_neg hx, htail]

theorem update_map_ids (i now : Nat) (l : List PostDoc) :
    (l.map (fun q => if q.id == i then bumpPost now q else q)).map PostDoc.id = l.map PostDoc.id := by
  rw [List.map_map]
  exact List.map_congr_left (by
    intro q _
    by_cases h : q.id = i <;> simp [h, bumpPost])

theorem hydratePost_eq_some (cs : List CharacterDoc) (p : PostDoc) (c : CharacterDoc)
    (hnd : (cs.map (fun c => Nat.repr c.id)).Nodup) (hc : c ∈ cs)
    (hk : Nat.repr c.id = p.author_id) :
    hydratePost cs p = ⟨p, some ⟨c.username, c.name, c.avatar_url⟩⟩ := by
  unfold hydratePost
  rw [char_map_get_eq_some cs p.author_id c hnd hc hk]

theorem hydratePost_eq_none (cs : List CharacterDoc) (p : PostDoc)
    (h : ∀ c ∈ cs, Nat.repr c.id ≠ p.author_id) :
    hydratePost cs p = ⟨p, none⟩ := by
  unfold hydratePost
  rw [char_map_get_eq_none cs p.author_id h]

theorem hydratePost_post (cs : List CharacterDoc) (p : PostDoc) :
    (hydratePost cs p).post = p := by
  unfold hydratePost
  cases char_map_get cs p.author_id <;> rfl

theorem hydratePost_isSome (cs : List CharacterDoc) (p : PostDoc)
    (h : ∃ c ∈ cs, Nat.repr c.id = p.author_id) :
    (hydratePost cs p).author.isSome = true := by
  unfold hydratePost
  have := char_map_get_isSome cs p.author_id h
  rcases ho : char_map_get cs p.author_id with _ | c
  · rw [ho] at this; exact absurd this (by simp)
  · rfl

theorem hydrateStory_eq_some (cs : List CharacterDoc) (st : StoryDoc) (c : CharacterDoc)
    (hnd : (cs.map (fun c => Nat.repr c.id)).Nodup) (hc : c ∈ cs)
    (hk : Nat.repr c.id = st.author_id) :
    hydrateStory cs st = ⟨st, some ⟨c.username, c.name, c.avatar_url⟩⟩ := by
  unfold hydrateStory
  rw [char_map_get_eq_some cs st.author_id c hnd hc hk]

theorem hydrateStory_eq_none (cs : List CharacterDoc) (st : StoryDoc)
    (h : ∀ c ∈ cs, Nat.repr c.id ≠ st.author_id) :
    hydrateStory cs st = ⟨st, none⟩ := by
  unfold hydrateStory
  rw [char_map_get_eq_none cs st.author_id h]

theorem hydrateStory_story (cs : List CharacterDoc) (st : StoryDoc) :
    (hydrateStory cs st).story = st := by
  unfold hydrateStory
  cases char_map_get cs st.author_id <;> rfl

theorem hydrateStory_isSome (cs : List CharacterDoc) (st : StoryDoc)
    (h : ∃ c ∈ cs, Nat.repr c.id = st.author_id) :
    (hydrateStory cs st).author.isSome = true := by
  unfold hydrateStory
  have := char_map_get_isSome cs st.author_id h
  rcases ho : char_map_get cs st.author_id with _ | c
  · rw [ho] at this; exact absurd this (by simp)
  · rfl

/-! ### Claim theorems -/

/-- C1: for every store state with at least 5 Character records, the bootstrap
seeder (any `character_count`, `posts_per_character`, randomness) creates no
Character, Post or Story record (the store is returned unchanged) and the
returned counts are the store's current counts of characters, posts and
stories. -/
theorem ensure_bootstrap_threshold_noop (s : Store) (N P : Nat) (rng : Rng)
    (h5 : 5 ≤ s.characters.length) :
    ensure_bootstrap (some s) N P rng =
      (some s, .ok ⟨s.characters.length, s.posts.length, s.stories.length⟩) := by
  simp [ensure_bootstrap, h5]

/-- C1 witness: the threshold short-circuit evaluated on a concrete
five-character store. -/
theorem ensure_bootstrap_threshold_noop_witness :
    5 ≤ fiveCharStore.characters.length ∧
    ensure_bootstrap (some fiveCharStore) 24 2 rngZero =
      (some fiveCharStore,
       .ok ⟨fiveCharStore.characters.length, fiveCharStore.posts.length,
            fiveCharStore.stories.length⟩) :=
  ⟨by decide, ensure_bootstrap_threshold_noop fiveCharStore 24 2 rngZero (by decide)⟩

/-- C6 counterexample: on a store already holding five characters the
short-circuited seeder does NOT return all-zero counts — it returns the
current store counts (here `characters = 5`). -/
theorem ensure_bootstrap_threshold_counts_not_zero_cex :
    (ensure_bootstrap (some fiveCharStore) 24 2 rngZero).2 ≠
      ApiResult.ok ⟨0, 0, 0⟩ := by
  decide

/-- C6 amended: when the seeder short-circuits at the ≥5-character threshold,
the returned counts are the current store counts of characters, posts and
stories (so `characters` is at least 5), not zero. -/
theorem ensure_bootstrap_threshold_counts (s : Store) (N P : Nat) (rng : Rng)
    (h5 : 5 ≤ s.characters.length) :
    (ensure_bootstrap (some s) N P rng).2 =
      .ok ⟨s.characters.length, s.posts.length, s.stories.length⟩ ∧
    5 ≤ s.characters.length := by
  constructor
  · simp [ensure_bootstrap, h5]
  · exact h5

/-- C6 amended witness: evaluated on the concrete five-character store. -/
theorem ensure_bootstrap_threshold_counts_witness :
    5 ≤ fiveCharStore.characters.length ∧
    ((ensure_bootstrap (some fiveCharStore) 24 2 rngZero).2 =
      .ok ⟨fiveCharStore.characters.length, fiveCharStore.posts.length,
           fiveCharStore.stories.length⟩ ∧
     5 ≤ fiveCharStore.characters.length) :=
  ⟨by decide, ensure_bootstrap_threshold_counts fiveCharStore 24 2 rngZero (by decide)⟩

/-- C2: from an empty store, the seeder with `character_count = N` and
`posts_per_character = P` (any randomness) creates exactly N characters,
exactly P×N posts and between 0 and N stories; the returned `characters`
count is N, `posts` is P×N, and `stories` equals the number of story records
created. -/
theorem ensure_bootstrap_from_empty_counts (nid now0 : Nat) (rng : Rng) (N P : Nat) :
    ∃ s resp,
      ensure_bootstrap (some (emptyStore nid now0)) N P rng = (some s, .ok resp) ∧
      s.characters.length = N ∧
      s.posts.length = P * N ∧
      s.stories.length = resp.stories ∧
      resp.characters = N ∧
      resp.posts = P * N ∧
      resp.stories ≤ N := by
  have h5 : ¬ 5 ≤ (emptyStore nid now0).characters.length := by
    simp [emptyStore]
  set o1 := seedCharacters (emptyStore nid now0) rng N with ho1
  have hlen : o1.1.characters.length = N := by
    rw [ho1, seedCharacters_chars_len]
    simp [emptyStore]
  have hcs : mongoLimit N o1.1.characters = o1.1.characters :=
    mongoLimit_of_length_le N _ (le_of_eq hlen)
  have hmain : ensure_bootstrap (some (emptyStore nid now0)) N P rng =
      (some (seedContent o1.1 o1.2 P (mongoLimit N o1.1.characters)).1,
       .ok ⟨N, (seedContent o1.1 o1.2 P (mongoLimit N o1.1.characters)).2.1,
            (seedContent o1.1 o1.2 P (mongoLimit N o1.1.characters)).2.2.1⟩) := by
    simp only [ensure_bootstrap]
    rw [if_neg h5]
  refine ⟨_, _, hmain, ?_, ?_, ?_, rfl, ?_, ?_⟩
  · rw [seedContent_characters, hlen]
  · rw [seedContent_posts_len, hcs, hlen, ho1, seedCharacters_posts]
    simp [emptyStore]
  · rw [seedContent_stories_len, ho1, seedCharacters_stories]
    simp [emptyStore]
  · rw [seedContent_created_posts, hcs, hlen]
  · calc (seedContent o1.1 o1.2 P (mongoLimit N o1.1.characters)).2.2.1
        ≤ (mongoLimit N o1.1.characters).length :=
          seedContent_created_stories_le _ _ _ P
      _ = N := by rw [hcs, hlen]

/-- C3: for every store (ids unique, as the store guarantees for `_id`) and
every item returned by GET /api/feed or GET /api/stories, an item whose
`author_id` is the string form of a stored character id carries exactly that
character's `username`, `name` and `avatar_url` as its author; an item
matching no character carries no author field. -/
theorem hydration_matches_characters (s : Store) (limit : Nat)
    (hnd : (s.characters.map (fun c => Nat.repr c.id)).Nodup) :
    FeedHydrationCorrect s limit ∧ StoriesHydrationCorrect s limit := by
  constructor
  · intro items hitems
    simp only [get_feed, healthy, ApiResult.ok.injEq] at hitems
    subst hitems
    intro it hit
    rcases List.mem_map.mp hit with ⟨p, hp, rfl⟩
    rw [hydratePost_post]
    constructor
    · intro c hc hk
      rw [hydratePost_eq_some s.characters p c hnd hc hk]
    · intro hnone
      rw [hydratePost_eq_none s.characters p hnone]
  · intro items hitems
    simp only [get_stories, healthy, ApiResult.ok.injEq] at hitems
    subst hitems
    intro it hit
    rcases List.mem_map.mp hit with ⟨st, hst, rfl⟩
    rw [hydrateStory_story]
    constructor
    · intro c hc hk
      rw [hydrateStory_eq_some s.characters st c hnd hc hk]
    · intro hnone
      rw [hydrateStory_eq_none s.characters st hnone]

/-- C3 witness: evaluated on a concrete store with one hydratable post, one
dangling post and one story. -/
theorem hydration_matches_characters_witness :
    (fixStore.characters.map (fun c => Nat.repr c.id)).Nodup ∧
    (FeedHydrationCorrect fixStore 25 ∧ StoriesHydrationCorrect fixStore 25) :=
  ⟨by decide, hydration_matches_characters fixStore 25 (by decide)⟩

/-- C4: liking an existing post (healthy store, unique ids) increments that
post's `like_count` by exactly 1 and refreshes its `updated_at` to the
current clock, leaves every other field of the post and every other document
unchanged (characters, stories, clock and id counter are untouched; every
non-matching post is mapped to itself), and returns the updated post
record. -/
theorem like_post_increments_exactly (s : Store) (f : Faults) (pid : String)
    (i : Nat) (p : PostDoc)
    (hf : f.postErr = none)
    (hparse : parseObjectId pid = some i)
    (hmem : p ∈ s.posts) (hpi : p.id = i)
    (hnd : (s.posts.map PostDoc.id).Nodup) :
    like_post (some s) f pid =
      (some { s with posts := s.posts.map (fun q => if q.id == i then bumpPost s.now q else q) },
       .ok (some (bumpPost s.now p))) := by
  simp only [like_post, hparse, hf]
  rw [updateFirstPost_spec i s.now s.posts hnd p hmem hpi]
  have hfind : (s.posts.map (fun q => if q.id == i then bumpPost s.now q else q)).find?
      (fun q => q.id == i) = some (bumpPost s.now p) := by
    have hnd2 : ((s.posts.map (fun q => if q.id == i then bumpPost s.now q else q)).map
        PostDoc.id).Nodup := by
      rw [update_map_ids]
      exact hnd
    have hmem2 : bumpPost s.now p ∈
        s.posts.map (fun q => if q.id == i then bumpPost s.now q else q) :=
      List.mem_map.mpr ⟨p, hmem, by simp [hpi]⟩
    exact find_key_unique PostDoc.id i _ hnd2 (bumpPost s.now p) hmem2 (by simp [bumpPost, hpi])
  show (some { s with posts := s.posts.map (fun q : PostDoc => if q.id == i then bumpPost s.now q else q) },
        ApiResult.ok ((s.posts.map (fun q : PostDoc => if q.id == i then bumpPost s.now q else q)).find?
          (fun q : PostDoc => q.id == i))) =
      (some { s with posts := s.posts.map (fun q : PostDoc => if q.id == i then bumpPost s.now q else q) },
       ApiResult.ok (some (bumpPost s.now p)))
  rw [hfind]

/-- C4 witness: evaluated on the concrete store, liking post 3. -/
theorem like_post_increments_exactly_witness :
    healthy.postErr = none ∧
    parseObjectId "3" = some 3 ∧
    fixPost ∈ fixStore.posts ∧
    fixPost.id = 3 ∧
    (fixStore.posts.map PostDoc.id).Nodup ∧
    like_post (some fixStore) healthy "3" =
      (some { fixStore with
              posts := fixStore.posts.map
                (fun q => if q.id == 3 then bumpPost fixStore.now q else q) },
       .ok (some (bumpPost fixStore.now fixPost))) :=
  ⟨rfl, by decide, by decide, by decide, by decide,
   like_post_increments_exactly fixStore healthy "3" 3 fixPost rfl (by decide)
     (by decide) (by decide) (by decide)⟩

/-- C5 counterexample: liking a well-formed id (here "5") matching no stored
post does NOT produce a 404 with message "Post not found": the 404 raised
inside the guarded block is re-raised by the generic handler as a 400 whose
detail is the stringified exception "404: Post not found". -/
theorem like_post_missing_not_404_cex :
    like_post (some fixStore) healthy "5" ≠
      (some fixStore, ApiResult.httpError 404 "Post not found") := by
  decide

/-- C5 amended: liking a well-formed id that matches no stored post leaves
the store unchanged and responds 400 (not 404) with detail
"404: Post not found" — the 404 raised on `modified_count == 0` is swallowed
by the surrounding `except Exception` and re-reported as a 400. -/
theorem like_post_missing_masked (s : Store) (f : Faults) (pid : String) (i : Nat)
    (hf : f.postErr = none)
    (hparse : parseObjectId pid = some i)
    (hnone : ∀ p ∈ s.posts, p.id ≠ i) :
    like_post (some s) f pid = (some s, .httpError 400 "404: Post not found") := by
  simp only [like_post, hparse, hf]
  rw [updateFirstPost_no_match i s.now s.posts hnone]
  rfl

/-- C5 amended witness: evaluated on the concrete store with id "5". -/
theorem like_post_missing_masked_witness :
    healthy.postErr = none ∧
    parseObjectId "5" = some 5 ∧
    (∀ p ∈ fixStore.posts, p.id ≠ 5) ∧
    like_post (some fixStore) healthy "5" =
      (some fixStore, .httpError 400 "404: Post not found") :=
  ⟨rfl, by decide, by decide,
   like_post_missing_masked fixStore healthy "5" 5 rfl (by decide) (by decide)⟩

/-- C7 counterexample: when querying the Story collection raises "boom",
GET /api/stories does not answer with a 500 response carrying "boom" — the
endpoint has no try/except, so the exception escapes the handler (FastAPI
then serves a generic 500 without the error text). -/
theorem get_stories_error_not_500_cex :
    get_stories (some fixStore) ⟨none, none, some "boom"⟩ 20 ≠
      ApiResult.httpError 500 "boom" := by
  decide

/-- C7 amended: a query exception in GET /api/stories (on the Story or the
Character collection) propagates unhandled out of the handler, unlike
GET /api/feed, whose try/except converts the same exceptions into an
HTTPException(500) carrying the error text. -/
theorem get_stories_propagates_get_feed_catches (s : Store) (f : Faults) (e : String)
    (limit : Nat) :
    (f.storyErr = some e → get_stories (some s) f limit = .unhandled e) ∧
    (f.storyErr = none → f.charErr = some e → get_stories (some s) f limit = .unhandled e) ∧
    (f.postErr = some e → get_feed (some s) f limit = .httpError 500 e) ∧
    (f.postErr = none → f.charErr = some e → get_feed (some s) f limit = .httpError 500 e) := by
  refine ⟨?_, ?_, ?_, ?_⟩
  · intro h1
    simp [get_stories, h1]
  · intro h1 h2
    simp [get_stories, h1, h2]
  · intro h1
    simp [get_feed, h1]
  · intro h1 h2
    simp [get_feed, h1, h2]

/-- C7 amended witness: evaluated with concrete injected failures. -/
theorem get_stories_propagates_get_feed_catches_witness :
    get_stories (some fixStore) ⟨none, none, some "boom"⟩ 20 = .unhandled "boom" ∧
    get_feed (some fixStore) ⟨some "bm2", none, none⟩ 25 = .httpError 500 "bm2" :=
  ⟨(get_stories_propagates_get_feed_catches fixStore ⟨none, none, some "boom"⟩ "boom" 20).1 rfl,
   (get_stories_propagates_get_feed_catches fixStore ⟨some "bm2", none, none⟩ "bm2" 25).2.2.2 rfl rfl⟩

/-- C8 counterexample: with the handle unset, the like endpoint responds 400
with the TypeError text, not 500 with "Database not configured" — the uniform
message exists only in `ensure_bootstrap`. -/
theorem db_unset_not_uniform_cex :
    (like_post none healthy "abc").2 ≠
      ApiResult.httpError 500 "Database not configured" := by
  decide

/-- C8 amended: with the persistence handle unset, only the bootstrap seeder
reports 500 "Database not configured"; GET /api/feed catches the subscript
TypeError and reports 500 with that exception text, POST /api/like catches it
and reports 400 with that text, and GET /api/stories and GET /api/characters
let it escape unhandled. -/
theorem db_unset_per_endpoint (f : Faults) (limit N P : Nat) (rng : Rng) (pid : String) :
    ensure_bootstrap none N P rng = (none, .httpError 500 "Database not configured") ∧
    get_feed none f limit = .httpError 500 noneSubscriptMsg ∧
    get_stories none f limit = .unhandled noneSubscriptMsg ∧
    get_characters none f limit = .unhandled noneSubscriptMsg ∧
    like_post none f pid = (none, .httpError 400 noneSubscriptMsg) :=
  ⟨rfl, rfl, rfl, rfl, rfl⟩

/-- C9 counterexample: constructing a Reel with `like_count = -5` and
`comment_count = -3` SUCCEEDS — `Reel.like_count`/`comment_count` are plain
`int = 0` fields with no `ge=0` bound in src/schemas.py, contradicting the
claim that negative values fail validation on Reel. -/
theorem reel_negative_counts_accepted_cex :
    vOk (Reel.validate
      ⟨some "character", some "42", some "https://x/v.mp4", none, some (-5), some (-3)⟩) =
      true := by
  decide

/-- C9 amended: for every entity type, construction succeeds exactly when
required fields are present, literal fields lie in their enumerated sets and
the numeric fields that declare a minimum (`followers`/`following` on
Character, `like_count`/`comment_count` on Post) are ≥ 0; `Reel.like_count`
and `Reel.comment_count` declare no minimum, so Reel construction is
insensitive to their values.  One conjunct per schema of src/schemas.py. -/
theorem validation_contract (ci : CharacterInput) (pin : PostInput) (ri : ReelInput)
    (ui : UserInput) (si : StoryInput) (co : CommentInput) (vi : ConversationInput)
    (mi : MessageInput) (ni : NotificationInput) :
    (vOk (Character.validate ci) = true ↔
      ci.username.isSome = true ∧ ci.name.isSome = true ∧
      0 ≤ ci.followers.getD 0 ∧ 0 ≤ ci.following.getD 0) ∧
    (vOk (Post.validate pin) = true ↔
      (pin.author_type.getD "character" = "character" ∨
        pin.author_type.getD "character" = "user") ∧
      pin.author_id.isSome = true ∧
      (pin.type.getD "image" = "image" ∨ pin.type.getD "image" = "video") ∧
      pin.media_url.isSome = true ∧
      0 ≤ pin.like_count.getD 0 ∧ 0 ≤ pin.comment_count.getD 0) ∧
    (vOk (Reel.validate ri) = true ↔
      (ri.author_type.getD "character" = "character" ∨
        ri.author_type.getD "character" = "user") ∧
      ri.author_id.isSome = true ∧ ri.media_url.isSome = true) ∧
    (vOk (User.validate ui) = true ↔ ui.username.isSome = true) ∧
    (vOk (Story.validate si) = true ↔
      (si.author_type.getD "character" = "character" ∨
        si.author_type.getD "character" = "user") ∧
      si.author_id.isSome = true ∧ si.media_url.isSome = true) ∧
    (vOk (Comment.validate co) = true ↔
      co.post_id.isSome = true ∧
      (co.author_type.getD "character" = "character" ∨
        co.author_type.getD "character" = "user") ∧
      co.author_id.isSome = true ∧ co.text.isSome = true) ∧
    (vOk (Conversation.validate vi) = true ↔ vi.participant_ids.isSome = true) ∧
    (vOk (Message.validate mi) = true ↔
      mi.conversation_id.isSome = true ∧
      (mi.author_type.getD "character" = "character" ∨
        mi.author_type.getD "character" = "user") ∧
      mi.author_id.isSome = true) ∧
    (vOk (Notification.validate ni) = true ↔
      ni.user_id.isSome = true ∧
      (ni.type = some "like" ∨ ni.type = some "comment" ∨ ni.type = some "follow") ∧
      ni.actor_id.isSome = true ∧
      (ni.actor_type.getD "character" = "character" ∨
        ni.actor_type.getD "character" = "user")) := by
  refine ⟨?_, ?_, ?_, ?_, ?_, ?_, ?_, ?_, ?_⟩
  · rcases ci with ⟨u, n, b, a, ints, fol, fog⟩
    cases u <;> cases n <;>
      simp [Character.validate, vOk] <;>
      split_ifs <;> simp_all
  · rcases pin with ⟨at?, aid, ty?, mu, cap, tags, lc, cc⟩
    cases aid <;> cases mu <;>
      simp [Post.validate, vOk] <;>
      split_ifs <;> try simp_all
    all_goals tauto
  · rcases ri with ⟨at?, aid, mu, cap, lc, cc⟩
    cases aid <;> cases mu <;>
      simp [Reel.validate, vOk] <;>
      split_ifs <;> try simp_all
    all_goals tauto
  · rcases ui with ⟨u, n, b, a⟩
    cases u <;> simp [User.validate, vOk]
  · rcases si with ⟨at?, aid, mu, ov, ex⟩
    cases aid <;> cases mu <;>
      simp [Story.validate, vOk] <;>
      split_ifs <;> try simp_all
    all_goals tauto
  · rcases co with ⟨pid, at?, aid, tx⟩
    cases pid <;> cases aid <;> cases tx <;>
      simp [Comment.validate, vOk] <;>
      split_ifs <;> try simp_all
    all_goals tauto
  · rcases vi with ⟨ps⟩
    cases ps <;> simp [Conversation.validate, vOk]
  · rcases mi with ⟨cid, at?, aid, tx, mu⟩
    cases cid <;> cases aid <;>
      simp [Message.validate, vOk] <;>
      split_ifs <;> try simp_all
    all_goals tauto
  · rcases ni with ⟨uid, ty, aid, at?, pid, msg⟩
    cases uid <;> cases ty <;> cases aid <;>
      simp [Notification.validate, vOk] <;>
      split_ifs <;> try simp_all
    all_goals tauto

/-- C10: after a from-empty bootstrap seed, every Post has
`author_type = "character"` and `type = "image"`, every Story has
`author_type = "character"`, every `author_id` is the string form of an
existing Character document's id, and consequently every item returned by
GET /api/feed or GET /api/stories carries an author field. -/
theorem seeded_content_always_hydrates (nid now0 : Nat) (rng : Rng) (N P limit : Nat)
    (s : Store)
    (h : (ensure_bootstrap (some (emptyStore nid now0)) N P rng).1 = some s) :
    SeededStoreHydrates s limit := by
  have h5 : ¬ 5 ≤ (emptyStore nid now0).characters.length := by
    simp [emptyStore]
  set o1 := seedCharacters (emptyStore nid now0) rng N with ho1
  have hmain : (ensure_bootstrap (some (emptyStore nid now0)) N P rng).1 =
      some (seedContent o1.1 o1.2 P (mongoLimit N o1.1.characters)).1 := by
    simp only [ensure_bootstrap]
    rw [if_neg h5]
  have hs : s = (seedContent o1.1 o1.2 P (mongoLimit N o1.1.characters)).1 := by
    rw [hmain] at h
    exact (Option.some.injEq _ _).mp h.symm
  have hchars : s.characters = o1.1.characters := by
    rw [hs, seedContent_characters]
  have hpostsrc : ∀ p ∈ s.posts, ∃ c ∈ s.characters, postFromChar c p := by
    intro p hp
    rw [hs] at hp
    rcases seedContent_posts_mem (mongoLimit N o1.1.characters) o1.1 o1.2 P p hp with h0 | hex
    · rw [ho1, seedCharacters_posts] at h0
      exact absurd h0 (List.not_mem_nil p)
    · rcases hex with ⟨c, hc, hpc⟩
      exact ⟨c, by rw [hchars]; exact mongoLimit_subset N _ c hc, hpc⟩
  have hstorysrc : ∀ st ∈ s.stories, ∃ c ∈ s.characters, storyFromChar c st := by
    intro st hst
    rw [hs] at hst
    rcases seedContent_stories_mem (mongoLimit N o1.1.characters) o1.1 o1.2 P st hst with h0 | hex
    · rw [ho1, seedCharacters_stories] at h0
      exact absurd h0 (List.not_mem_nil st)
    · rcases hex with ⟨c, hc, hsc⟩
      exact ⟨c, by rw [hchars]; exact mongoLimit_subset N _ c hc, hsc⟩
  refine ⟨?_, ?_, ?_, ?_⟩
  · intro p hp
    rcases hpostsrc p hp with ⟨c, hc, hat, hty, hid⟩
    exact ⟨hat, hty, c, hc, hid⟩
  · intro st hst
    rcases hstorysrc st hst with ⟨c, hc, hat, hid⟩
    exact ⟨hat, c, hc, hid⟩
  · intro items hitems
    simp only [get_feed, healthy, ApiResult.ok.injEq] at hitems
    subst hitems
    intro it hit
    rcases List.mem_map.mp hit with ⟨p, hp, rfl⟩
    have hpmem : p ∈ s.posts :=
      (mem_sortDescBy PostDoc.created_at p s.posts).mp
        (mongoLimit_subset limit _ p hp)
    rcases hpostsrc p hpmem with ⟨c, hc, _, _, hid⟩
    exact hydratePost_isSome s.characters p ⟨c, hc, hid.symm⟩
  · intro items hitems
    simp only [get_stories, healthy, ApiResult.ok.injEq] at hitems
    subst hitems
    intro it hit
    rcases List.mem_map.mp hit with ⟨st, hst, rfl⟩
    have hstmem : st ∈ s.stories :=
      (mem_sortDescBy StoryDoc.created_at st s.stories).mp
        (mongoLimit_subset limit _ st hst)
    rcases hstorysrc st hstmem with ⟨c, hc, _, hid⟩
    exact hydrateStory_isSome s.characters st ⟨c, hc, hid.symm⟩

/-- C10 witness: a concrete from-empty seed of 2 characters with 1 post
each under the mixed stream. -/
theorem seeded_content_always_hydrates_witness :
    (ensure_bootstrap (some (emptyStore 0 100)) 2 1 rngMix).1 = some seededStore ∧
    SeededStoreHydrates seededStore 25 :=
  ⟨rfl, seeded_content_always_hydrates 0 100 rngMix 2 1 25 seededStore rfl⟩
